import Mathlib

/- Formal model of the AMCL planar-scanner sensor-weighting subsystem
   (badger_amcl, `amcl::PlanarScanner` / `amcl::PlanarData`).  The repository
   provides only the header `src/include/amcl/sensors/planar_scanner.h`; the
   bodies of `updateSensor`, `applyModelToSampleSet` and the four
   `calc*Model` routines live in a translation unit that is not part of the
   sources, so the operational definitions below are modelled from the
   specification (each such definition says so in its doc comment).
   Real-valued transcendental functions (exp, sin, cos, the normal density)
   are abstracted as an explicit environment record, and double arithmetic
   is modelled over the rationals. -/

/-- A 2D point in map coordinates. -/
structure Point where
  x : ℚ
  y : ℚ
deriving DecidableEq

/-- A rigid 2D pose: position plus heading (`pf_vector_t` of the headers). -/
structure Pose where
  x : ℚ
  y : ℚ
  heading : ℚ
deriving DecidableEq

/-- One beam of a planar scan: a (range, bearing) tuple, one entry of the
`ranges_` array of `PlanarData`. -/
structure Beam where
  range : ℚ
  bearing : ℚ
deriving DecidableEq

/-- The planar observation `PlanarData`: an ordered sequence of
(range, bearing) tuples plus the sensor's maximum range.  The beam count
`range_count_` is the length of the sequence. -/
structure PlanarData where
  ranges : List Beam
  range_max : ℚ
deriving DecidableEq

/-- The `range_count_` field of `PlanarData`, an int in the source. -/
def range_count (data : PlanarData) : Int :=
  (data.ranges.length : Int)

/-- One particle `PFSample`: a hypothesised pose with an importance weight. -/
structure PFSample where
  pose : Pose
  weight : ℚ
deriving DecidableEq

/-- The sample set `PFSampleSet`: an ordered collection of particles. -/
abbrev PFSampleSet := List PFSample

/-- Abstract analytic environment: the transcendental functions used by the
sensor models (`std::exp`, `std::cos`, `std::sin` and the normal density
`normalPdf deviation stddev`), abstracted so that the development stays over
the rationals. -/
structure Env where
  exp : ℚ → ℚ
  cos : ℚ → ℚ
  sin : ℚ → ℚ
  normalPdf : ℚ → ℚ → ℚ

/-- The external map / distance-field collaborator (`OccupancyMap`),
specified only at its interface boundary: obstacle-distance lookup,
bounds test, free-space test, distance to free space, and ray casting
(predicted range from a pose along a bearing). -/
structure DistanceField where
  distToObstacle : Point → ℚ
  isInMap : Point → Bool
  isFree : Point → Bool
  distToFreeSpace : Point → ℚ
  rayCast : Pose → ℚ → ℚ

/-- The four planar model variants (`PlanarModelType`). -/
inductive PlanarModelType where
  | beam
  | likelihood_field
  | likelihood_field_prob
  | likelihood_field_gompertz
deriving DecidableEq

/-- The tunable parameters owned by a `PlanarScanner` instance.  `model_type`
is `none` until one of the `setModel*` configuration calls has been made. -/
structure ScannerParams where
  model_type : Option PlanarModelType
  max_beams : ℕ
  z_hit : ℚ
  z_short : ℚ
  z_max : ℚ
  z_rand : ℚ
  sigma_hit : ℚ
  lambda_short : ℚ
  max_occ_dist : ℚ
  do_beamskip : Bool
  beam_skip_distance : ℚ
  beam_skip_threshold : ℚ
  beam_skip_error_threshold : ℚ
  gompertz_a : ℚ
  gompertz_b : ℚ
  gompertz_c : ℚ
  input_shift : ℚ
  input_scale : ℚ
  output_shift : ℚ
  off_map_factor : ℚ
  non_free_space_factor : ℚ
  non_free_space_radius : ℚ
deriving DecidableEq

/-- Modelled from the spec: beam subsampling.  When an observation carries
more beams than the configured maximum, beams are selected at an even stride
(count divided by max), not the first N (`planar_scanner.cpp` is absent from
the sources). -/
def retainedBeams (max_beams : ℕ) (ranges : List Beam) : List Beam :=
  let step := max (ranges.length / max_beams) 1
  (ranges.enum.filter (fun p => p.1 % step == 0)).map Prod.snd

/-- Modelled from the spec: a beam endpoint computed directly from range and
bearing and transformed into map frame by the particle pose. -/
def beamEndpoint (env : Env) (pose : Pose) (b : Beam) : Point :=
  ⟨pose.x + b.range * env.cos (pose.heading + b.bearing),
   pose.y + b.range * env.sin (pose.heading + b.bearing)⟩

/-- Modelled from the spec: the map-factor adjustment of `setMapFactors`.
Off-map poses are scaled by `off_map_factor`; occupied/unknown poses by
`non_free_space_factor` interpolated up to 1.0 over `non_free_space_radius`;
free-space poses are not penalised. -/
def mapFactor (params : ScannerParams) (field : DistanceField) (pose : Pose) : ℚ :=
  let pt : Point := ⟨pose.x, pose.y⟩
  if field.isInMap pt then
    if field.isFree pt then 1
    else
      params.non_free_space_factor +
        (1 - params.non_free_space_factor) *
          min 1 (field.distToFreeSpace pt / params.non_free_space_radius)
  else params.off_map_factor

/-- Modelled from the spec: the per-beam probability of the likelihood-field
model, from the obstacle distance `d` looked up at the beam endpoint. -/
def lfPz (env : Env) (params : ScannerParams) (field : DistanceField)
    (pose : Pose) (b : Beam) : ℚ :=
  let d := field.distToObstacle (beamEndpoint env pose b)
  params.z_hit * env.exp (-(d ^ 2 / (2 * params.sigma_hit ^ 2))) + params.z_rand

/-- Modelled from the spec: the per-particle likelihood of the
likelihood-field model, the product of the per-beam probabilities over the
retained beams. -/
def lfParticleLikelihood (env : Env) (params : ScannerParams)
    (field : DistanceField) (data : PlanarData) (pose : Pose) : ℚ :=
  ((retainedBeams params.max_beams data.ranges).map
    (lfPz env params field pose)).prod

/-- Modelled from the spec: the per-beam probability of the beam (physical
mixture) model: hit, short, max and random components, each guarded, summed. -/
def beamPz (env : Env) (params : ScannerParams) (field : DistanceField)
    (data : PlanarData) (pose : Pose) (b : Beam) : ℚ :=
  let z := b.range
  let zstar := field.rayCast pose b.bearing
  (if z < data.range_max then
      params.z_hit * env.normalPdf (z - zstar) params.sigma_hit
    else 0) +
  (if z < zstar then
      params.z_short * (params.lambda_short * env.exp (-(params.lambda_short * z))) /
        (1 - env.exp (-(params.lambda_short * zstar)))
    else 0) +
  (if data.range_max ≤ z then params.z_max else 0) +
  (if z < data.range_max then params.z_rand / data.range_max else 0)

/-- Modelled from the spec: the per-particle likelihood of the beam model,
per-beam probabilities combined multiplicatively over the retained beams. -/
def beamParticleLikelihood (env : Env) (params : ScannerParams)
    (field : DistanceField) (data : PlanarData) (pose : Pose) : ℚ :=
  ((retainedBeams params.max_beams data.ranges).map
    (beamPz env params field data pose)).prod

/-- Modelled from the spec: whether a particle's projected endpoint for a
beam lands in occupied space, i.e. within `beam_skip_distance` of an
obstacle (the per-(particle, beam) flag of the beam-skip scratch matrix). -/
def beamOccFlag (env : Env) (params : ScannerParams) (field : DistanceField)
    (pose : Pose) (b : Beam) : Bool :=
  field.distToObstacle (beamEndpoint env pose b) < params.beam_skip_distance

/-- Modelled from the spec: a beam is flagged for skipping when the fraction
of particles whose endpoint agrees with an obstacle falls below
`beam_skip_threshold`. -/
def beamSkipped (env : Env) (params : ScannerParams) (field : DistanceField)
    (poses : List Pose) (b : Beam) : Bool :=
  ((poses.filter (fun po => beamOccFlag env params field po b)).length : ℚ) <
    params.beam_skip_threshold * (poses.length : ℚ)

/-- Modelled from the spec: the fraction of retained beams flagged for
skipping in this cycle. -/
def skippedFraction (env : Env) (params : ScannerParams)
    (field : DistanceField) (data : PlanarData) (poses : List Pose) : ℚ :=
  let beams := retainedBeams params.max_beams data.ranges
  ((beams.filter (beamSkipped env params field poses)).length : ℚ) /
    (beams.length : ℚ)

/-- Modelled from the spec: beam skipping is in force for the cycle only when
`do_beamskip` is set and the skipped fraction does not exceed
`beam_skip_error_threshold` (the fail-open safety valve). -/
def lfProbSkipActive (env : Env) (params : ScannerParams)
    (field : DistanceField) (data : PlanarData) (poses : List Pose) : Bool :=
  params.do_beamskip &&
    !(decide (params.beam_skip_error_threshold <
        skippedFraction env params field data poses))

/-- Modelled from the spec: the maximum achievable per-beam score of the
likelihood-field model, attained at obstacle distance zero. -/
def lfProbPzMax (env : Env) (params : ScannerParams) : ℚ :=
  params.z_hit * env.exp 0 + params.z_rand

/-- Modelled from the spec: the normalised per-beam score of the
probabilistic likelihood-field model. -/
def lfProbPz (env : Env) (params : ScannerParams) (field : DistanceField)
    (pose : Pose) (b : Beam) : ℚ :=
  lfPz env params field pose b / lfProbPzMax env params

/-- Modelled from the spec: the per-particle likelihood of the probabilistic
likelihood-field model; when skipping is in force, beams flagged for skipping
are excluded from the product for all particles. -/
def lfProbParticleLikelihood (env : Env) (params : ScannerParams)
    (field : DistanceField) (data : PlanarData) (poses : List Pose)
    (pose : Pose) : ℚ :=
  let beams := retainedBeams params.max_beams data.ranges
  let used := if lfProbSkipActive env params field data poses then
      beams.filter (fun b => !(beamSkipped env params field poses b))
    else beams
  (used.map (lfProbPz env params field pose)).prod

/-- Modelled from the spec: the Gompertz reshaping function `applyGompertz`. -/
def applyGompertz (env : Env) (params : ScannerParams) (p : ℚ) : ℚ :=
  params.gompertz_a *
      env.exp (-(params.gompertz_b *
        env.exp (-(params.gompertz_c *
          (p * params.input_scale + params.input_shift))))) +
    params.output_shift

/-- Multiply a per-particle likelihood into each existing particle weight,
leaving the pose untouched. -/
def updateSet (lik : Pose → ℚ) (set : PFSampleSet) : PFSampleSet :=
  set.map (fun s => { s with weight := s.weight * lik s.pose })

/-- Accumulate the total weight over an (already updated) sample set, the way
the calc routines do, and return it with the set. -/
def totalAndSet (l : PFSampleSet) : ℚ × PFSampleSet :=
  (l.foldl (fun acc s => acc + s.weight) 0, l)

/-- Modelled from the spec: `PlanarScanner::calcBeamModel`. -/
def calcBeamModel (env : Env) (params : ScannerParams) (field : DistanceField)
    (data : PlanarData) (set : PFSampleSet) : ℚ × PFSampleSet :=
  totalAndSet (updateSet
    (fun pose => beamParticleLikelihood env params field data pose) set)

/-- Modelled from the spec: `PlanarScanner::calcLikelihoodFieldModel`; the
map factor is applied once per particle, after the beam-level score. -/
def calcLikelihoodFieldModel (env : Env) (params : ScannerParams)
    (field : DistanceField) (data : PlanarData) (set : PFSampleSet) :
    ℚ × PFSampleSet :=
  totalAndSet (updateSet
    (fun pose => lfParticleLikelihood env params field data pose *
      mapFactor params field pose) set)

/-- Modelled from the spec: `PlanarScanner::calcLikelihoodFieldModelProb`. -/
def calcLikelihoodFieldModelProb (env : Env) (params : ScannerParams)
    (field : DistanceField) (data : PlanarData) (set : PFSampleSet) :
    ℚ × PFSampleSet :=
  totalAndSet (updateSet
    (fun pose =>
      lfProbParticleLikelihood env params field data (set.map PFSample.pose) pose *
        mapFactor params field pose) set)

/-- Modelled from the spec: `PlanarScanner::calcLikelihoodFieldModelGompertz`;
the full per-beam product is passed through the Gompertz transform. -/
def calcLikelihoodFieldModelGompertz (env : Env) (params : ScannerParams)
    (field : DistanceField) (data : PlanarData) (set : PFSampleSet) :
    ℚ × PFSampleSet :=
  totalAndSet (updateSet
    (fun pose =>
      applyGompertz env params (lfParticleLikelihood env params field data pose) *
        mapFactor params field pose) set)

/-- Modelled from the spec: `PlanarScanner::applyModelToSampleSet`, the
per-model dispatch applying the active model to the set and returning the
accumulated total weight. -/
def applyModelToSampleSet (env : Env) (params : ScannerParams)
    (field : DistanceField) (m : PlanarModelType) (data : PlanarData)
    (set : PFSampleSet) : ℚ × PFSampleSet :=
  match m with
  | .beam => calcBeamModel env params field data set
  | .likelihood_field => calcLikelihoodFieldModel env params field data set
  | .likelihood_field_prob => calcLikelihoodFieldModelProb env params field data set
  | .likelihood_field_gompertz =>
      calcLikelihoodFieldModelGompertz env params field data set

/-- The per-particle likelihood multiplied into each existing weight by the
active model (the map factor included for the likelihood-field variants). -/
def particleLikelihood (env : Env) (params : ScannerParams)
    (field : DistanceField) (m : PlanarModelType) (data : PlanarData)
    (set : PFSampleSet) (pose : Pose) : ℚ :=
  match m with
  | .beam => beamParticleLikelihood env params field data pose
  | .likelihood_field =>
      lfParticleLikelihood env params field data pose * mapFactor params field pose
  | .likelihood_field_prob =>
      lfProbParticleLikelihood env params field data (set.map PFSample.pose) pose *
        mapFactor params field pose
  | .likelihood_field_gompertz =>
      applyGompertz env params (lfParticleLikelihood env params field data pose) *
        mapFactor params field pose

/-- Modelled from the spec: `PlanarScanner::updateSensor`.  Returns false and
leaves the set untouched when the observation has no usable beams or no model
has been configured; otherwise applies the active model and returns true. -/
def updateSensor (env : Env) (params : ScannerParams) (field : DistanceField)
    (data : PlanarData) (set : PFSampleSet) : Bool × PFSampleSet :=
  match params.model_type with
  | none => (false, set)
  | some m =>
      if range_count data ≤ 0 then (false, set)
      else (true, (applyModelToSampleSet env params field m data set).2)

/-- The weight accumulator of the calc routines computes the sum of the
weights of the list it folds over. -/
theorem foldl_weight_eq (l : PFSampleSet) (a : ℚ) :
    l.foldl (fun acc s => acc + s.weight) a = a + (l.map PFSample.weight).sum := by
  induction l generalizing a with
  | nil => simp
  | cons s t ih => simp [List.foldl, ih, add_assoc]

/-- The dispatcher applies the active model's per-particle likelihood to the
set and accumulates the total. -/
theorem applyModel_eq (env : Env) (params : ScannerParams)
    (field : DistanceField) (m : PlanarModelType) (data : PlanarData)
    (set : PFSampleSet) :
    applyModelToSampleSet env params field m data set =
      totalAndSet (updateSet (particleLikelihood env params field m data set) set) := by
  cases m <;> rfl

/-- Updating weights leaves the sequence of poses unchanged. -/
theorem updateSet_map_pose (lik : Pose → ℚ) (set : PFSampleSet) :
    (updateSet lik set).map PFSample.pose = set.map PFSample.pose := by
  simp [updateSet, List.map_map, Function.comp]

/-- Updating weights leaves the particle count unchanged. -/
theorem updateSet_length (lik : Pose → ℚ) (set : PFSampleSet) :
    (updateSet lik set).length = set.length := by
  simp [updateSet]

/-- The weights after an update are the old weights times the likelihoods. -/
theorem updateSet_map_weight (lik : Pose → ℚ) (set : PFSampleSet) :
    (updateSet lik set).map PFSample.weight =
      set.map (fun s => s.weight * lik s.pose) := by
  simp [updateSet, List.map_map, Function.comp]

/-- `updateSensor` never changes the sequence of poses. -/
theorem updateSensor_map_pose (env : Env) (params : ScannerParams)
    (field : DistanceField) (data : PlanarData) (set : PFSampleSet) :
    (updateSensor env params field data set).2.map PFSample.pose =
      set.map PFSample.pose := by
  cases hm : params.model_type with
  | none => simp [updateSensor, hm]
  | some m =>
    by_cases hc : range_count data ≤ 0
    · simp [updateSensor, hm, hc]
    · simp [updateSensor, hm, hc, applyModel_eq, totalAndSet, updateSet_map_pose]

/-- `updateSensor` never changes the particle count. -/
theorem updateSensor_length (env : Env) (params : ScannerParams)
    (field : DistanceField) (data : PlanarData) (set : PFSampleSet) :
    (updateSensor env params field data set).2.length = set.length := by
  cases hm : params.model_type with
  | none => simp [updateSensor, hm]
  | some m =>
    by_cases hc : range_count data ≤ 0
    · simp [updateSensor, hm, hc]
    · simp [updateSensor, hm, hc, applyModel_eq, totalAndSet, updateSet_length]

/-- An example environment for concrete evaluations. -/
def envEx : Env := ⟨fun _ => 1, fun _ => 1, fun _ => 0, fun _ _ => 1⟩

/-- An example distance field: everything in free space, obstacles at
distance zero, ray casts returning 5. -/
def fieldEx : DistanceField :=
  ⟨fun _ => 0, fun _ => true, fun _ => true, fun _ => 0, fun _ _ => 5⟩

/-- Example parameters: likelihood-field model configured, `z_hit = 0`,
`z_rand = 2`, beam skipping off. -/
def paramsEx : ScannerParams :=
  { model_type := some .likelihood_field, max_beams := 30, z_hit := 0,
    z_short := 0, z_max := 0, z_rand := 2, sigma_hit := 1, lambda_short := 1,
    max_occ_dist := 2, do_beamskip := false, beam_skip_distance := 1,
    beam_skip_threshold := 1/2, beam_skip_error_threshold := 1/2,
    gompertz_a := 1, gompertz_b := 1, gompertz_c := 1, input_shift := 0,
    input_scale := 1, output_shift := 0, off_map_factor := 1,
    non_free_space_factor := 1/4, non_free_space_radius := 2 }

/-- Example parameters with no model configured. -/
def paramsNoneEx : ScannerParams := { paramsEx with model_type := none }

/-- An example observation with a single beam. -/
def dataEx : PlanarData := ⟨[⟨1, 0⟩], 10⟩

/-- An example sample set with a single unit-weight particle. -/
def setEx : PFSampleSet := [⟨⟨0, 0, 0⟩, 1⟩]

/-- C1: `updateSensor` returns false and leaves every particle weight exactly
unchanged when the observation has zero usable beams (`range_count_ <= 0`) or
no sensor model has been configured; otherwise it multiplies a per-particle
likelihood into each existing particle weight and returns true. -/
theorem C1_updateSensor_contract (env : Env) (params : ScannerParams)
    (field : DistanceField) (data : PlanarData) (set : PFSampleSet) :
    ((range_count data ≤ 0 ∨ params.model_type = none) →
      (updateSensor env params field data set).1 = false ∧
        (updateSensor env params field data set).2 = set) ∧
    (∀ m : PlanarModelType, params.model_type = some m →
      0 < range_count data →
      (updateSensor env params field data set).1 = true ∧
        (updateSensor env params field data set).2.map PFSample.weight =
          set.map (fun s =>
            s.weight * particleLikelihood env params field m data set s.pose)) := by
  constructor
  · rintro (h | h)
    · cases hm : params.model_type with
      | none => simp [updateSensor, hm]
      | some m => simp [updateSensor, hm, h]
    · simp [updateSensor, h]
  · intro m hm hc
    have hnot : ¬ range_count data ≤ 0 := not_le.mpr hc
    refine ⟨by simp [updateSensor, hm, hnot], ?_⟩
    simp [updateSensor, hm, hnot, applyModel_eq, totalAndSet, updateSet_map_weight]

/-- Witness for C1: both branches of the contract at concrete inputs. -/
theorem C1_witness :
    ((updateSensor envEx paramsNoneEx fieldEx dataEx setEx).1 = false ∧
      (updateSensor envEx paramsNoneEx fieldEx dataEx setEx).2 = setEx) ∧
    ((updateSensor envEx paramsEx fieldEx dataEx setEx).1 = true ∧
      (updateSensor envEx paramsEx fieldEx dataEx setEx).2.map PFSample.weight =
        setEx.map (fun s => s.weight *
          particleLikelihood envEx paramsEx fieldEx .likelihood_field dataEx setEx s.pose)) :=
  ⟨(C1_updateSensor_contract envEx paramsNoneEx fieldEx dataEx setEx).1 (Or.inr rfl),
   (C1_updateSensor_contract envEx paramsEx fieldEx dataEx setEx).2
     .likelihood_field rfl (by decide)⟩

/-- C2: `applyModelToSampleSet` returns exactly the sum of the particle
weights as they stand after the model has been applied, and it returns 0.0
precisely when that post-update total is zero. -/
theorem C2_applyModel_returns_post_update_total (env : Env)
    (params : ScannerParams) (field : DistanceField) (m : PlanarModelType)
    (data : PlanarData) (set : PFSampleSet) :
    (applyModelToSampleSet env params field m data set).1 =
      ((applyModelToSampleSet env params field m data set).2.map
        PFSample.weight).sum ∧
    ((applyModelToSampleSet env params field m data set).1 = 0 ↔
      ((applyModelToSampleSet env params field m data set).2.map
        PFSample.weight).sum = 0) := by
  have h : (applyModelToSampleSet env params field m data set).1 =
      ((applyModelToSampleSet env params field m data set).2.map
        PFSample.weight).sum := by
    rw [applyModel_eq]
    simp [totalAndSet, foldl_weight_eq]
  exact ⟨h, by rw [h]⟩

/-- C8: for every call to `applyModelToSampleSet` (all four model variants)
and to `updateSensor`, every particle's pose, the particle count and the
order of the particles are exactly the same after the call as before. -/
theorem C8_frame_only_weight_mutated (env : Env) (params : ScannerParams)
    (field : DistanceField) (m : PlanarModelType) (data : PlanarData)
    (set : PFSampleSet) :
    (applyModelToSampleSet env params field m data set).2.map PFSample.pose =
      set.map PFSample.pose ∧
    (applyModelToSampleSet env params field m data set).2.length = set.length ∧
    (updateSensor env params field data set).2.map PFSample.pose =
      set.map PFSample.pose ∧
    (updateSensor env params field data set).2.length = set.length := by
  refine ⟨?_, ?_, updateSensor_map_pose env params field data set,
    updateSensor_length env params field data set⟩
  · rw [applyModel_eq]
    exact updateSet_map_pose _ _
  · rw [applyModel_eq]
    exact updateSet_length _ _

/-- C10: `applyModelToSampleSet` is deterministic: two runs given equal
observation data and equal sample-set states produce the same returned total
and the same resulting per-particle weights. -/
theorem C10_applyModel_deterministic (env : Env) (params : ScannerParams)
    (field : DistanceField) (m : PlanarModelType) (d1 d2 : PlanarData)
    (s1 s2 : PFSampleSet) (hd : d1 = d2) (hs : s1 = s2) :
    (applyModelToSampleSet env params field m d1 s1).1 =
      (applyModelToSampleSet env params field m d2 s2).1 ∧
    (applyModelToSampleSet env params field m d1 s1).2.map PFSample.weight =
      (applyModelToSampleSet env params field m d2 s2).2.map PFSample.weight := by
  subst hd
  subst hs
  exact ⟨rfl, rfl⟩

/-- Witness for C10 at concrete inputs. -/
theorem C10_witness :
    dataEx = dataEx ∧ setEx = setEx ∧
    ((applyModelToSampleSet envEx paramsEx fieldEx .likelihood_field dataEx setEx).1 =
      (applyModelToSampleSet envEx paramsEx fieldEx .likelihood_field dataEx setEx).1 ∧
    (applyModelToSampleSet envEx paramsEx fieldEx .likelihood_field dataEx setEx).2.map
        PFSample.weight =
      (applyModelToSampleSet envEx paramsEx fieldEx .likelihood_field dataEx setEx).2.map
        PFSample.weight) :=
  ⟨rfl, rfl, C10_applyModel_deterministic envEx paramsEx fieldEx
    .likelihood_field dataEx dataEx setEx setEx rfl rfl⟩

/-- C3: under the likelihood-field model, with `d` the obstacle distance
looked up at the beam endpoint transformed by the particle pose, the
per-beam probability is `z_hit * exp(-d^2 / (2 * sigma_hit^2)) + z_rand`,
and each per-beam probability is multiplied directly into the particle's
weight (a plain product, no log-space combination). -/
theorem C3_likelihood_field_per_beam (env : Env) (params : ScannerParams)
    (field : DistanceField) (data : PlanarData) (set : PFSampleSet) :
    (calcLikelihoodFieldModel env params field data set).2.map PFSample.weight =
      set.map (fun s => s.weight *
        (((retainedBeams params.max_beams data.ranges).map (fun b =>
            params.z_hit * env.exp
              (-((field.distToObstacle (beamEndpoint env s.pose b)) ^ 2 /
                (2 * params.sigma_hit ^ 2))) + params.z_rand)).prod *
          mapFactor params field s.pose)) := by
  simp only [calcLikelihoodFieldModel, totalAndSet]
  rw [updateSet_map_weight]
  rfl

/-- C4: for a pose in occupied/unknown space the map factor is
`non_free_space_factor + (1 - non_free_space_factor) * min 1 (d / radius)`,
which equals `non_free_space_factor` at distance 0, equals 1 from the radius
onward, varies linearly in between, and is applied once per particle per
update (not per beam). -/
theorem C4_map_factor_interpolation (env : Env) (params : ScannerParams)
    (field : DistanceField) (pose : Pose)
    (hin : field.isInMap ⟨pose.x, pose.y⟩ = true)
    (hocc : field.isFree ⟨pose.x, pose.y⟩ = false) :
    mapFactor params field pose =
      params.non_free_space_factor + (1 - params.non_free_space_factor) *
        min 1 (field.distToFreeSpace ⟨pose.x, pose.y⟩ /
          params.non_free_space_radius) ∧
    (field.distToFreeSpace ⟨pose.x, pose.y⟩ = 0 →
      mapFactor params field pose = params.non_free_space_factor) ∧
    (0 < params.non_free_space_radius →
      params.non_free_space_radius ≤ field.distToFreeSpace ⟨pose.x, pose.y⟩ →
      mapFactor params field pose = 1) ∧
    (0 < params.non_free_space_radius →
      0 ≤ field.distToFreeSpace ⟨pose.x, pose.y⟩ →
      field.distToFreeSpace ⟨pose.x, pose.y⟩ ≤ params.non_free_space_radius →
      mapFactor params field pose = params.non_free_space_factor +
        (1 - params.non_free_space_factor) *
          (field.distToFreeSpace ⟨pose.x, pose.y⟩ /
            params.non_free_space_radius)) ∧
    (∀ (data : PlanarData) (set : PFSampleSet),
      (calcLikelihoodFieldModel env params field data set).2.map PFSample.weight =
        set.map (fun s => s.weight *
          (lfParticleLikelihood env params field data s.pose *
            mapFactor params field s.pose))) := by
  have hbase : mapFactor params field pose =
      params.non_free_space_factor + (1 - params.non_free_space_factor) *
        min 1 (field.distToFreeSpace ⟨pose.x, pose.y⟩ /
          params.non_free_space_radius) := by
    simp [mapFactor, hin, hocc]
  refine ⟨hbase, ?_, ?_, ?_, ?_⟩
  · intro h0
    rw [hbase, h0, zero_div, min_eq_right (by norm_num : (0:ℚ) ≤ 1)]
    ring
  · intro hr hd
    rw [hbase, min_eq_left ((one_le_div hr).mpr hd)]
    ring
  · intro hr _ hd
    rw [hbase, min_eq_right ((div_le_one hr).mpr hd)]
  · intro data set
    simp [calcLikelihoodFieldModel, totalAndSet, updateSet_map_weight]

/-- An example distance field whose poses lie in occupied space, one unit
away from free space. -/
def fieldOccEx : DistanceField :=
  ⟨fun _ => 0, fun _ => true, fun _ => false, fun _ => 1, fun _ _ => 5⟩

/-- An example pose at the origin. -/
def poseEx : Pose := ⟨0, 0, 0⟩

/-- Witness for C4: occupied pose one unit from free space, radius two. -/
theorem C4_witness :
    fieldOccEx.isInMap ⟨poseEx.x, poseEx.y⟩ = true ∧
    fieldOccEx.isFree ⟨poseEx.x, poseEx.y⟩ = false ∧
    mapFactor paramsEx fieldOccEx poseEx =
      paramsEx.non_free_space_factor + (1 - paramsEx.non_free_space_factor) *
        min 1 (fieldOccEx.distToFreeSpace ⟨poseEx.x, poseEx.y⟩ /
          paramsEx.non_free_space_radius) :=
  ⟨rfl, rfl, (C4_map_factor_interpolation envEx paramsEx fieldOccEx poseEx rfl rfl).1⟩

/-- C6: under the beam model, the per-beam probability is the sum of the four
guarded mixture components (hit only for `z < range_max`, short only for
`z < z*`, max only for `z >= range_max`, random only for `z < range_max`,
with `z*` the ray-cast predicted range), and the per-beam probabilities are
combined multiplicatively into the particle's weight. -/
theorem C6_beam_model_mixture (env : Env) (params : ScannerParams)
    (field : DistanceField) (data : PlanarData) (set : PFSampleSet) :
    (calcBeamModel env params field data set).2.map PFSample.weight =
      set.map (fun s => s.weight *
        ((retainedBeams params.max_beams data.ranges).map (fun b =>
          (if b.range < data.range_max then
              params.z_hit *
                env.normalPdf (b.range - field.rayCast s.pose b.bearing)
                  params.sigma_hit
            else 0) +
          (if b.range < field.rayCast s.pose b.bearing then
              params.z_short *
                  (params.lambda_short *
                    env.exp (-(params.lambda_short * b.range))) /
                (1 - env.exp
                  (-(params.lambda_short * field.rayCast s.pose b.bearing)))
            else 0) +
          (if data.range_max ≤ b.range then params.z_max else 0) +
          (if b.range < data.range_max then params.z_rand / data.range_max
            else 0))).prod) := by
  simp only [calcBeamModel, totalAndSet]
  rw [updateSet_map_weight]
  rfl

/-- C7: under the Gompertz model the final per-particle weight multiplies in
the Gompertz reshaping of the full per-beam product (not of each per-beam
score), with the six configured coefficients. -/
theorem C7_gompertz_on_full_product (env : Env) (params : ScannerParams)
    (field : DistanceField) (data : PlanarData) (set : PFSampleSet) :
    (calcLikelihoodFieldModelGompertz env params field data set).2.map
        PFSample.weight =
      set.map (fun s => s.weight *
        ((params.gompertz_a * env.exp (-(params.gompertz_b * env.exp
            (-(params.gompertz_c *
              (((retainedBeams params.max_beams data.ranges).map
                  (lfPz env params field s.pose)).prod *
                params.input_scale + params.input_shift))))) +
          params.output_shift) *
          mapFactor params field s.pose)) ∧
    (∀ p : ℚ, applyGompertz env params p =
      params.gompertz_a * env.exp (-(params.gompertz_b * env.exp
        (-(params.gompertz_c * (p * params.input_scale + params.input_shift))))) +
        params.output_shift) := by
  constructor
  · simp only [calcLikelihoodFieldModelGompertz, totalAndSet]
    rw [updateSet_map_weight]
    rfl
  · intro p
    rfl

/-- C5: if the fraction of beams that would be skipped exceeds
`beam_skip_error_threshold`, skipping is disabled for the entire cycle, every
retained beam is integrated normally, and the result (total and weights)
equals the result with beam skipping disabled entirely. -/
theorem C5_beamskip_fail_open (env : Env) (params : ScannerParams)
    (field : DistanceField) (data : PlanarData) (set : PFSampleSet)
    (hskip : params.do_beamskip = true)
    (hfrac : params.beam_skip_error_threshold <
      skippedFraction env params field data (set.map PFSample.pose)) :
    lfProbSkipActive env params field data (set.map PFSample.pose) = false ∧
    (∀ po : Pose,
      lfProbParticleLikelihood env params field data (set.map PFSample.pose) po =
        ((retainedBeams params.max_beams data.ranges).map
          (lfProbPz env params field po)).prod) ∧
    calcLikelihoodFieldModelProb env params field data set =
      calcLikelihoodFieldModelProb env { params with do_beamskip := false }
        field data set := by
  have h1 : lfProbSkipActive env params field data (set.map PFSample.pose) = false := by
    simp [lfProbSkipActive, hskip, hfrac]
  have h2 : lfProbSkipActive env { params with do_beamskip := false } field data
      (set.map PFSample.pose) = false := by
    simp [lfProbSkipActive]
  refine ⟨h1, ?_, ?_⟩
  · intro po
    simp [lfProbParticleLikelihood, h1]
  · simp only [calcLikelihoodFieldModelProb, lfProbParticleLikelihood, h1, h2]
    rfl

/-- Example parameters with the probabilistic model and beam skipping on. -/
def paramsSkipEx : ScannerParams :=
  { paramsEx with model_type := some .likelihood_field_prob, do_beamskip := true }

/-- An example distance field with all obstacles far away, so every beam
disagrees with the map and is flagged for skipping. -/
def fieldFarEx : DistanceField :=
  ⟨fun _ => 10, fun _ => true, fun _ => true, fun _ => 0, fun _ _ => 5⟩

/-- Witness for C5: a cycle in which every beam would be skipped. -/
theorem C5_witness :
    paramsSkipEx.do_beamskip = true ∧
    paramsSkipEx.beam_skip_error_threshold <
      skippedFraction envEx paramsSkipEx fieldFarEx dataEx
        (setEx.map PFSample.pose) ∧
    calcLikelihoodFieldModelProb envEx paramsSkipEx fieldFarEx dataEx setEx =
      calcLikelihoodFieldModelProb envEx
        { paramsSkipEx with do_beamskip := false } fieldFarEx dataEx setEx :=
  ⟨rfl,
   by norm_num [skippedFraction, retainedBeams, beamSkipped, beamOccFlag,
     beamEndpoint, paramsSkipEx, paramsEx, fieldFarEx, envEx, dataEx, setEx,
     List.enum],
   (C5_beamskip_fail_open envEx paramsSkipEx fieldFarEx dataEx setEx rfl
     (by norm_num [skippedFraction, retainedBeams, beamSkipped, beamOccFlag,
       beamEndpoint, paramsSkipEx, paramsEx, fieldFarEx, envEx, dataEx, setEx,
       List.enum])).2.2⟩

/-- C9 counterexample: `applyModelToSampleSet` is not idempotent.  With one
unit-weight particle and a per-particle likelihood of 2, the first invocation
returns total 2 and doubles the stored weight, so the immediately repeated
invocation returns total 4. -/
theorem C9_counterexample :
    ¬ ((applyModelToSampleSet envEx paramsEx fieldEx .likelihood_field dataEx
          ((applyModelToSampleSet envEx paramsEx fieldEx .likelihood_field
            dataEx setEx).2)).1 =
        (applyModelToSampleSet envEx paramsEx fieldEx .likelihood_field dataEx
          setEx).1) := by
  norm_num [applyModelToSampleSet, calcLikelihoodFieldModel, totalAndSet,
    updateSet, lfParticleLikelihood, lfPz, retainedBeams, List.enum,
    mapFactor, beamEndpoint, envEx, fieldEx, paramsEx, dataEx, setEx]

/-- The per-particle likelihood depends on the sample set only through its
sequence of poses. -/
theorem particleLikelihood_congr (env : Env) (params : ScannerParams)
    (field : DistanceField) (m : PlanarModelType) (data : PlanarData)
    (s1 s2 : PFSampleSet) (h : s1.map PFSample.pose = s2.map PFSample.pose)
    (pose : Pose) :
    particleLikelihood env params field m data s1 pose =
      particleLikelihood env params field m data s2 pose := by
  cases m <;> simp [particleLikelihood, h]

/-- C9 amended: a second successive invocation of `applyModelToSampleSet`
multiplies the same per-particle likelihood into the already-updated weights,
so it returns the sum of `weight * likelihood^2` over the original set — not
the first call's total; the call is a pure function of its arguments (two
invocations on the same sample-set value agree) but it is not idempotent on
the mutated set. -/
theorem C9_second_call_total (env : Env) (params : ScannerParams)
    (field : DistanceField) (m : PlanarModelType) (data : PlanarData)
    (set : PFSampleSet) :
    (applyModelToSampleSet env params field m data
      ((applyModelToSampleSet env params field m data set).2)).1 =
    (set.map (fun s => s.weight *
      particleLikelihood env params field m data set s.pose ^ 2)).sum := by
  have hinner : (applyModelToSampleSet env params field m data set).2 =
      updateSet (particleLikelihood env params field m data set) set := by
    rw [applyModel_eq]
    rfl
  rw [hinner, applyModel_eq]
  have hcongr : ∀ po : Pose,
      particleLikelihood env params field m data
        (updateSet (particleLikelihood env params field m data set) set) po =
      particleLikelihood env params field m data set po :=
    fun po => particleLikelihood_congr env params field m data _ set
      (updateSet_map_pose _ _) po
  simp only [totalAndSet, foldl_weight_eq, zero_add]
  rw [updateSet_map_weight]
  simp only [hcongr]
  simp only [updateSet, List.map_map]
  refine congrArg List.sum (List.map_congr_left ?_)
  intro s _
  simp only [Function.comp_apply]
  ring
